import Mathlib

/-!
Verification of the Streamlit app in `Obesity App/app.py` from the
lifestyle-and-behavioral-data-related-to-obesity repository.

Numeric values (Python floats and ints) are modelled over `ℚ` and `ℤ`;
Python strings are Lean `String`s.  Each definition below is a direct
translation of the corresponding Python function or inline code block.
-/

set_option maxHeartbeats 1000000

/-- Prefix check over character lists: does the first list lead the second? -/
def leadsWith : List Char → List Char → Bool
  | [], _ => true
  | _ :: _, [] => false
  | a :: as, b :: bs => a == b && leadsWith as bs

/-- `hasSub needle hay = true` iff `needle` occurs contiguously inside `hay`. -/
def hasSub (needle : List Char) : List Char → Bool
  | [] => leadsWith needle []
  | c :: rest => leadsWith needle (c :: rest) || hasSub needle rest

/-- Embedding of the Python substring test `needle in hay` on strings. -/
def strContains (hay needle : String) : Bool :=
  hasSub needle.data hay.data

/-- `interpret_label` from app.py lines 26-33. -/
def interpret_label (label : String) : String :=
  if strContains label "Obesity" then "High risk"
  else if strContains label "Overweight" then "Moderate risk"
  else if strContains label "Normal" then "Healthy range"
  else "Monitor"

/-- Canned reason string appended when `family == 1` (app.py line 38). -/
def reason_family : String := "Family history increases baseline risk."

/-- Canned reason string appended when `faf <= 0.7` (app.py line 40). -/
def reason_faf : String :=
  "Low physical activity (FAF) is linked with higher obesity levels."

/-- Canned reason string appended when `tue >= 1.2` (app.py line 42). -/
def reason_tue : String :=
  "Higher screen time (TUE) suggests a more sedentary lifestyle."

/-- Canned reason string appended when `caec in [Frequently, Always]` (app.py line 44). -/
def reason_caec : String :=
  "Frequent snacking between meals (CAEC) is associated with higher weight categories."

/-- Canned reason string appended when `fcvc <= 2.0` (app.py line 46). -/
def reason_fcvc : String :=
  "Lower vegetable intake (FCVC) reduces a protective dietary factor."

/-- Canned reason string appended when `ch2o <= 1.7` (app.py line 48). -/
def reason_ch2o : String :=
  "Lower water intake (CH2O) often correlates with less healthy routines."

/-- Canned reason string appended when `favc == 1` (app.py line 50). -/
def reason_favc : String :=
  "Frequent high-calorie food (FAVC) can increase risk when combined with low activity."

/-- Canned reason string appended when `calc in [Frequently, Always]` (app.py line 52). -/
def reason_calc : String :=
  "Higher alcohol consumption (CALC) is associated with increased overweight risk in the data."

/-- `pick_reasons` from app.py lines 35-53: sequentially appends a canned
reason for each trigger condition that holds, then keeps `reasons[:4]`. -/
def pick_reasons (family : ℤ) (faf tue : ℚ) (caec : String) (fcvc ch2o : ℚ)
    (favc : ℤ) (calc_ : String) : List String :=
  let reasons : List String := []
  let reasons := if family = 1 then reasons ++ [reason_family] else reasons
  let reasons := if faf ≤ 0.7 then reasons ++ [reason_faf] else reasons
  let reasons := if tue ≥ 1.2 then reasons ++ [reason_tue] else reasons
  let reasons := if caec ∈ (["Frequently", "Always"] : List String) then
    reasons ++ [reason_caec] else reasons
  let reasons := if fcvc ≤ 2.0 then reasons ++ [reason_fcvc] else reasons
  let reasons := if ch2o ≤ 1.7 then reasons ++ [reason_ch2o] else reasons
  let reasons := if favc = 1 then reasons ++ [reason_favc] else reasons
  let reasons := if calc_ ∈ (["Frequently", "Always"] : List String) then
    reasons ++ [reason_calc] else reasons
  reasons.take 4

/-- `height_m = height_cm / 100` (app.py line 179). -/
def heightM (height_cm : ℚ) : ℚ := height_cm / 100

/-- `bmi = weight_kg / (height_m ** 2)` (app.py line 180). -/
def computeBMI (height_cm weight_kg : ℚ) : ℚ :=
  weight_kg / (heightM height_cm) ^ 2

/-- The underweight comment shown when `bmi < 18.5` (app.py line 186). -/
def underweightComment : String :=
  "You\x27re lighter than a feather 🪶 — maybe grab a sandwich and a smoothie!"

/-- The healthy comment shown when `18.5 <= bmi < 25` (app.py line 188). -/
def healthyComment : String :=
  "Perfectly shaped 😎✨ — your body called, it says \x27keep it up!\x27"

/-- The overweight comment shown when `25 <= bmi < 30` (app.py line 190). -/
def overweightComment : String :=
  "You\x27re in the \x27extra cuddle mode\x27 zone 🧸 — a bit more movement could help!"

/-- The high comment shown when `bmi >= 30` (app.py line 192). -/
def highComment : String :=
  "You\x27re in \x27boss-level mass\x27 mode 🦍 — consider healthier habits (and maybe fewer midnight snacks)."

/-- The if/elif chain over the BMI value (app.py lines 185-192), returning
the comment string that the app displays. -/
def bmiComment (bmi : ℚ) : String :=
  if bmi < 18.5 then underweightComment
  else if bmi < 25 then healthyComment
  else if bmi < 30 then overweightComment
  else highComment

/-- Abstract name for the four BMI bands of the if/elif chain. -/
inductive BMIBand where
  | underweight
  | healthy
  | overweight
  | high
deriving DecidableEq, Repr

/-- Severity order of the bands: underweight < healthy < overweight < high. -/
def BMIBand.toNat : BMIBand → Nat
  | .underweight => 0
  | .healthy => 1
  | .overweight => 2
  | .high => 3

/-- The same if/elif chain (app.py lines 185-192) viewed as a band selector. -/
def bmiBand (bmi : ℚ) : BMIBand :=
  if bmi < 18.5 then .underweight
  else if bmi < 25 then .healthy
  else if bmi < 30 then .overweight
  else .high

/-- A cell value of the single-row input table: the 14 widget values are
Python strings, ints or floats. -/
inductive Value where
  | str : String → Value
  | int : ℤ → Value
  | rat : ℚ → Value
deriving DecidableEq, Repr

/-- A pandas DataFrame as used by the app: named columns and a list of rows. -/
structure DataFrame where
  columns : List String
  rows : List (List Value)
deriving DecidableEq, Repr

/-- `build_row` from app.py lines 22-24: `pd.DataFrame([row], columns=feature_cols)`.
Returns `none` when the row width does not match the column count, the case
in which the pandas constructor raises. -/
def build_row (feature_cols : List String)
    (gender age family favc fcvc ncp caec smoke ch2o scc faf tue calc_ mtrans : Value) :
    Option DataFrame :=
  let row : List Value :=
    [gender, age, family, favc, fcvc, ncp, caec, smoke, ch2o, scc, faf, tue, calc_, mtrans]
  if feature_cols.length = row.length then
    some { columns := feature_cols, rows := [row] }
  else
    none

/-- Comparison used by `prob_df.sort_values(Probability, ascending=False)`
(app.py line 149): row `a` may precede row `b` iff `a` has the larger or
equal probability. -/
def probRel (a b : String × ℚ) : Prop := b.2 ≤ a.2

instance : DecidableRel probRel := fun a b => inferInstanceAs (Decidable (b.2 ≤ a.2))

instance : IsTotal (String × ℚ) probRel := ⟨fun a b => le_total b.2 a.2⟩

instance : IsTrans (String × ℚ) probRel := ⟨fun _ _ _ hab hbc => le_trans hbc hab⟩

/-- `pd.DataFrame({Category: model.classes_, Probability: proba})` (app.py
line 148): the class names paired with their probabilities. -/
def prob_table (classes : List String) (proba : List ℚ) : List (String × ℚ) :=
  classes.zip proba

/-- `prob_df.sort_values(Probability, ascending=False)` (app.py line 149). -/
def prob_sorted (classes : List String) (proba : List ℚ) : List (String × ℚ) :=
  List.insertionSort probRel (prob_table classes proba)

/-- `prob_df.head(3)` shown as the top-3 table (app.py line 152). -/
def top3 (classes : List String) (proba : List ℚ) : List (String × ℚ) :=
  (prob_sorted classes proba).take 3

/-- The eight trigger conditions of `pick_reasons` paired with their canned
strings, in declaration order (app.py lines 37-52). -/
def reasonRules (family : ℤ) (faf tue : ℚ) (caec : String) (fcvc ch2o : ℚ)
    (favc : ℤ) (calc_ : String) : List (Bool × String) :=
  [(decide (family = 1), reason_family),
   (decide (faf ≤ 0.7), reason_faf),
   (decide (tue ≥ 1.2), reason_tue),
   (decide (caec ∈ (["Frequently", "Always"] : List String)), reason_caec),
   (decide (fcvc ≤ 2.0), reason_fcvc),
   (decide (ch2o ≤ 1.7), reason_ch2o),
   (decide (favc = 1), reason_favc),
   (decide (calc_ ∈ (["Frequently", "Always"] : List String)), reason_calc)]

/-- The subsequence of the eight canned strings whose trigger conditions
hold, in declaration order. -/
def triggeredReasons (family : ℤ) (faf tue : ℚ) (caec : String) (fcvc ch2o : ℚ)
    (favc : ℤ) (calc_ : String) : List String :=
  ((reasonRules family faf tue caec fcvc ch2o favc calc_).filter Prod.fst).map Prod.snd

/-- C1: For every weight_kg and height_m pair, the BMI banding maps
bmi = weight_kg/(height_m²) to exactly the four bands of the spec:
bmi < 18.5 yields the underweight comment, 18.5 ≤ bmi < 25 the healthy
comment, 25 ≤ bmi < 30 the overweight comment, and bmi ≥ 30 the high
comment. -/
theorem bmi_banding_maps_to_four_bands (weight_kg height_m : ℚ) :
    (weight_kg / height_m ^ 2 < 18.5 →
      bmiComment (weight_kg / height_m ^ 2) = underweightComment) ∧
    (18.5 ≤ weight_kg / height_m ^ 2 ∧ weight_kg / height_m ^ 2 < 25 →
      bmiComment (weight_kg / height_m ^ 2) = healthyComment) ∧
    (25 ≤ weight_kg / height_m ^ 2 ∧ weight_kg / height_m ^ 2 < 30 →
      bmiComment (weight_kg / height_m ^ 2) = overweightComment) ∧
    (30 ≤ weight_kg / height_m ^ 2 →
      bmiComment (weight_kg / height_m ^ 2) = highComment) := by
  constructor
  · intro h
    unfold bmiComment
    rw [if_pos h]
  constructor
  · rintro ⟨h1, h2⟩
    unfold bmiComment
    rw [if_neg (not_lt.mpr h1), if_pos h2]
  constructor
  · rintro ⟨h1, h2⟩
    unfold bmiComment
    rw [if_neg (not_lt.mpr (by linarith)), if_neg (not_lt.mpr h1), if_pos h2]
  · intro h
    unfold bmiComment
    rw [if_neg (not_lt.mpr (by linarith)), if_neg (not_lt.mpr (by linarith)),
      if_neg (not_lt.mpr h)]

/-- Witness for C1: each of the four hypotheses discharged at a concrete
BMI value. -/
theorem bmi_banding_maps_to_four_bands_witness :
    bmiComment ((15 : ℚ) / 1 ^ 2) = underweightComment ∧
    bmiComment ((20 : ℚ) / 1 ^ 2) = healthyComment ∧
    bmiComment ((27 : ℚ) / 1 ^ 2) = overweightComment ∧
    bmiComment ((40 : ℚ) / 1 ^ 2) = highComment :=
  ⟨(bmi_banding_maps_to_four_bands 15 1).1 (by norm_num),
   (bmi_banding_maps_to_four_bands 20 1).2.1 (by norm_num),
   (bmi_banding_maps_to_four_bands 27 1).2.2.1 (by norm_num),
   (bmi_banding_maps_to_four_bands 40 1).2.2.2 (by norm_num)⟩

/-- C4: the BMI banding is exhaustive (every rational BMI value lands in
exactly one of the four bands, characterised by the stated intervals) and
monotone (a smaller BMI never lands in a strictly higher band, ordering the
bands underweight < healthy < overweight < high). -/
theorem bmiBand_exhaustive_and_monotone :
    (∀ bmi : ℚ,
      (bmiBand bmi = .underweight ↔ bmi < 18.5) ∧
      (bmiBand bmi = .healthy ↔ 18.5 ≤ bmi ∧ bmi < 25) ∧
      (bmiBand bmi = .overweight ↔ 25 ≤ bmi ∧ bmi < 30) ∧
      (bmiBand bmi = .high ↔ 30 ≤ bmi)) ∧
    (∀ bmi1 bmi2 : ℚ, bmi1 ≤ bmi2 →
      (bmiBand bmi1).toNat ≤ (bmiBand bmi2).toNat) := by
  constructor
  · intro bmi
    unfold bmiBand
    split_ifs with h1 h2 h3 <;>
      refine ⟨?_, ?_, ?_, ?_⟩ <;> simp_all <;> first | linarith | (intro h; linarith)
  · intro bmi1 bmi2 h
    unfold bmiBand
    split_ifs <;> simp_all [BMIBand.toNat] <;> linarith

/-- Witness for C4: the monotonicity hypothesis discharged at 20 ≤ 31. -/
theorem bmiBand_exhaustive_and_monotone_witness :
    (bmiBand 20).toNat ≤ (bmiBand 31).toNat :=
  bmiBand_exhaustive_and_monotone.2 20 31 (by norm_num)

/-- C6: the BMI tab computes weight in kilograms divided by the square of
height in meters, where height in meters is height_cm / 100; equivalently
10000·weight/height_cm². -/
theorem computeBMI_formula (height_cm weight_kg : ℚ) :
    computeBMI height_cm weight_kg = weight_kg / (height_cm / 100) ^ 2 ∧
    computeBMI height_cm weight_kg = 10000 * weight_kg / height_cm ^ 2 := by
  refine ⟨rfl, ?_⟩
  unfold computeBMI heightM
  rcases eq_or_ne height_cm 0 with h | h
  · simp [h]
  · field_simp
    ring

/-- C9: for heights within the UI widget bounds [120, 230] cm, the height
in meters is strictly positive and the squared denominator of the BMI
division is nonzero. -/
theorem bmi_division_safe (height_cm : ℚ)
    (h1 : 120 ≤ height_cm) (h2 : height_cm ≤ 230) :
    0 < heightM height_cm ∧ (heightM height_cm) ^ 2 ≠ 0 := by
  have hp : 0 < heightM height_cm := by
    unfold heightM
    have hpos : (0 : ℚ) < height_cm := by linarith
    exact div_pos hpos (by norm_num)
  exact ⟨hp, pow_ne_zero 2 (ne_of_gt hp)⟩

/-- Witness for C9: the bounds discharged at the widget default 170 cm. -/
theorem bmi_division_safe_witness :
    0 < heightM 170 ∧ (heightM 170) ^ 2 ≠ 0 :=
  bmi_division_safe 170 (by norm_num) (by norm_num)

/-- C2: interpret_label is a pure string-containment function: a label
containing "Obesity" maps to "High risk"; otherwise one containing
"Overweight" maps to "Moderate risk"; otherwise one containing "Normal"
maps to "Healthy range"; every other label maps to "Monitor". -/
theorem interpret_label_containment (label : String) :
    (strContains label "Obesity" = true → interpret_label label = "High risk") ∧
    (strContains label "Obesity" = false → strContains label "Overweight" = true →
      interpret_label label = "Moderate risk") ∧
    (strContains label "Obesity" = false → strContains label "Overweight" = false →
      strContains label "Normal" = true → interpret_label label = "Healthy range") ∧
    (strContains label "Obesity" = false → strContains label "Overweight" = false →
      strContains label "Normal" = false → interpret_label label = "Monitor") := by
  unfold interpret_label
  split_ifs with h1 h2 h3 <;> simp_all

/-- Witness for C2: the containment hypotheses discharged on the four
label shapes of the dataset. -/
theorem interpret_label_containment_witness :
    interpret_label "Obesity_Type_I" = "High risk" ∧
    interpret_label "Overweight_Level_I" = "Moderate risk" ∧
    interpret_label "Normal_Weight" = "Healthy range" ∧
    interpret_label "Insufficient_Weight" = "Monitor" :=
  ⟨(interpret_label_containment "Obesity_Type_I").1 (by decide),
   (interpret_label_containment "Overweight_Level_I").2.1 (by decide) (by decide),
   (interpret_label_containment "Normal_Weight").2.2.1
     (by decide) (by decide) (by decide),
   (interpret_label_containment "Insufficient_Weight").2.2.2
     (by decide) (by decide) (by decide)⟩

/-- C3: for every combination of its 8 inputs, pick_reasons returns a list
of at most 4 strings. -/
theorem pick_reasons_at_most_four (family : ℤ) (faf tue : ℚ) (caec : String)
    (fcvc ch2o : ℚ) (favc : ℤ) (calc_ : String) :
    (pick_reasons family faf tue caec fcvc ch2o favc calc_).length ≤ 4 := by
  have h : ∀ l : List String, (l.take 4).length ≤ 4 := fun l => by
    rw [List.length_take]
    exact min_le_left _ _
  exact h _

/-- C5: pick_reasons is deterministic and order-stable: two evaluations on
identical values of its 8 inputs return identical lists, of the same
length, element for element at every index. -/
theorem pick_reasons_deterministic
    (family family2 : ℤ) (faf faf2 tue tue2 : ℚ) (caec caec2 : String)
    (fcvc fcvc2 ch2o ch2o2 : ℚ) (favc favc2 : ℤ) (calc1 calc2 : String)
    (h1 : family = family2) (h2 : faf = faf2) (h3 : tue = tue2)
    (h4 : caec = caec2) (h5 : fcvc = fcvc2) (h6 : ch2o = ch2o2)
    (h7 : favc = favc2) (h8 : calc1 = calc2) :
    pick_reasons family faf tue caec fcvc ch2o favc calc1 =
      pick_reasons family2 faf2 tue2 caec2 fcvc2 ch2o2 favc2 calc2 ∧
    (pick_reasons family faf tue caec fcvc ch2o favc calc1).length =
      (pick_reasons family2 faf2 tue2 caec2 fcvc2 ch2o2 favc2 calc2).length ∧
    ∀ i : ℕ, (pick_reasons family faf tue caec fcvc ch2o favc calc1)[i]? =
      (pick_reasons family2 faf2 tue2 caec2 fcvc2 ch2o2 favc2 calc2)[i]? := by
  subst h1 h2 h3 h4 h5 h6 h7 h8
  exact ⟨rfl, rfl, fun _ => rfl⟩

/-- Witness for C5: the equality hypotheses discharged at the demo values. -/
theorem pick_reasons_deterministic_witness :
    pick_reasons 1 1 1 "Sometimes" 2 2 1 "Sometimes" =
      pick_reasons 1 1 1 "Sometimes" 2 2 1 "Sometimes" :=
  (pick_reasons_deterministic 1 1 1 1 1 1 "Sometimes" "Sometimes" 2 2 2 2 1 1
    "Sometimes" "Sometimes" rfl rfl rfl rfl rfl rfl rfl rfl).1

/-- C7: when feature_cols has 14 entries, build_row produces a table with
exactly one row whose cells are the 14 argument values in argument order
and whose column names are feature_cols. -/
theorem build_row_single_row (feature_cols : List String)
    (gender age family favc fcvc ncp caec smoke ch2o scc faf tue calc_ mtrans : Value)
    (h : feature_cols.length = 14) :
    build_row feature_cols gender age family favc fcvc ncp caec smoke ch2o
        scc faf tue calc_ mtrans =
      some { columns := feature_cols,
             rows := [[gender, age, family, favc, fcvc, ncp, caec, smoke,
               ch2o, scc, faf, tue, calc_, mtrans]] } := by
  unfold build_row
  simp [h]

/-- Witness for C7: the column-count hypothesis discharged on the dataset's
14 feature names and the demo widget values. -/
theorem build_row_single_row_witness :
    build_row ["Gender", "Age", "family_history_with_overweight", "FAVC",
        "FCVC", "NCP", "CAEC", "SMOKE", "CH2O", "SCC", "FAF", "TUE", "CALC",
        "MTRANS"]
      (.str "Female") (.int 25) (.int 1) (.int 1) (.rat 2) (.rat 3)
      (.str "Sometimes") (.int 0) (.rat 2) (.int 0) (.rat 1) (.rat 1)
      (.str "Sometimes") (.str "Public_Transportation") =
      some { columns := ["Gender", "Age", "family_history_with_overweight",
               "FAVC", "FCVC", "NCP", "CAEC", "SMOKE", "CH2O", "SCC", "FAF",
               "TUE", "CALC", "MTRANS"],
             rows := [[.str "Female", .int 25, .int 1, .int 1, .rat 2,
               .rat 3, .str "Sometimes", .int 0, .rat 2, .int 0, .rat 1,
               .rat 1, .str "Sometimes", .str "Public_Transportation"]] } :=
  build_row_single_row _ _ _ _ _ _ _ _ _ _ _ _ _ _ _ rfl

/-- C8: the probability table pairs each class with its probability
(it is a permutation of the class/probability zip), is sorted by
probability in descending order, and the top-3 table is the first three
rows of that sorted table. -/
theorem prob_table_sorted_desc (classes : List String) (proba : List ℚ) :
    List.Sorted probRel (prob_sorted classes proba) ∧
    List.Perm (prob_sorted classes proba) (prob_table classes proba) ∧
    top3 classes proba = (prob_sorted classes proba).take 3 ∧
    (top3 classes proba).length ≤ 3 := by
  refine ⟨List.sorted_insertionSort probRel _,
    List.perm_insertionSort probRel _, rfl, ?_⟩
  unfold top3
  rw [List.length_take]
  exact min_le_left _ _

/-- C10: pick_reasons returns exactly the first four elements of the
subsequence of its 8 canned strings whose trigger conditions hold, in
declaration order; in particular, when all 8 conditions hold the result is
the first four canned strings and the later-declared alcohol reason is
dropped. -/
theorem pick_reasons_first_four_of_triggered (family : ℤ) (faf tue : ℚ)
    (caec : String) (fcvc ch2o : ℚ) (favc : ℤ) (calc_ : String) :
    pick_reasons family faf tue caec fcvc ch2o favc calc_ =
      (triggeredReasons family faf tue caec fcvc ch2o favc calc_).take 4 ∧
    pick_reasons 1 0 2 "Frequently" 1 1 1 "Frequently" =
      [reason_family, reason_faf, reason_tue, reason_caec] ∧
    (pick_reasons 1 0 2 "Frequently" 1 1 1 "Frequently").contains reason_calc
      = false := by
  refine ⟨?_, ?_, ?_⟩
  · by_cases h1 : family = 1 <;>
    by_cases h2 : faf ≤ 0.7 <;>
    by_cases h3 : tue ≥ 1.2 <;>
    by_cases h4 : caec ∈ (["Frequently", "Always"] : List String) <;>
    by_cases h5 : fcvc ≤ 2.0 <;>
    by_cases h6 : ch2o ≤ 1.7 <;>
    by_cases h7 : favc = 1 <;>
    by_cases h8 : calc_ ∈ (["Frequently", "Always"] : List String) <;>
      simp [pick_reasons, triggeredReasons, reasonRules,
        h1, h2, h3, h4, h5, h6, h7, h8]
  · norm_num [pick_reasons]
  · rw [(by norm_num [pick_reasons] :
      pick_reasons 1 0 2 "Frequently" 1 1 1 "Frequently" =
        [reason_family, reason_faf, reason_tue, reason_caec])]
    simp [reason_family, reason_faf, reason_tue, reason_caec, reason_calc]
